import Mathlib

/-!
Verification development for the Maven dependency-graph visualizer
(stage 2 pipeline: coordinate parsing → POM URL construction → POM
retrieval → dependency extraction).

The Python source (stage2.py, class DependencyVisualizer) is embedded
shallowly:

* `parse_package_name`   embeds DependencyVisualizer.parse_package_name;
  the Python split(':', 1) is modelled by `split_first_colon` on the
  character list, and str.strip by `py_strip` (whitespace dropped from
  both ends).
* `construct_pom_url`    embeds DependencyVisualizer.construct_pom_url;
  the Python replace('.', '/') (single-character pattern) is the
  character map `replace_dots`, endswith('/') is `ends_with_slash`
  (tests the last character), and the slice repository[:-1] is
  String.mk repository.data.dropLast.
* `download_pom_file`    embeds DependencyVisualizer.download_pom_file;
  the foreign urllib transport is abstracted into an `HTTPResult` value:
  a delivered response with a status and an already-decoded body, an
  HTTPError raised by urllib (which urllib raises for every non-2xx
  final status), or a URLError.  Exceptions become Except StageError
  carrying the exact message strings the Python builds.
* `parse_dependencies_from_pom` embeds
  DependencyVisualizer.parse_dependencies_from_pom; the foreign
  xml.etree.ElementTree.fromstring frontend is a parameter producing
  either a syntax-error message or an element tree (`XMLElement`, tags
  in Clark form \x7buri\x7dlocal exactly as ElementTree exposes them
  once a namespace map is used).  find('.//maven:dependencies', ns) is
  `findDescendant` (first match in document (pre-)order over proper
  descendants), findall/find on direct children are
  `findAllChildren`/`findChild`, and .text is the element's optional
  text (ElementTree yields None for an empty element).  The body of the
  extraction loop is `parse_dep_element`.
-/

/-- A dependency record as built by parse_dependencies_from_pom: the four
dictionary fields.  Each field is Option String because ElementTree's
.text is None on an empty element, and the Python stores it untouched. -/
structure DependencyRecord where
  groupId : Option String
  artifactId : Option String
  version : Option String
  scope : Option String
deriving DecidableEq, Repr

/-- The error taxonomy of the pipeline; the Python raises exceptions whose
message strings are kept verbatim. -/
inductive StageError : Type where
  | malformedCoordinateError (msg : String)
  | retrievalError (msg : String)
  | manifestParseError (msg : String)
deriving DecidableEq, Repr

deriving instance DecidableEq for Except

mutual
/-- An XML element as exposed by ElementTree: a (namespace-qualified) tag,
the optional leading text, and the children in document order. -/
inductive XMLElement : Type where
  | mk (tag : String) (text : Option String) (children : XMLForest)
deriving Repr
/-- A list of sibling XML elements in document order (a specialised list,
so that tree recursion stays structural). -/
inductive XMLForest : Type where
  | nil
  | cons (e : XMLElement) (rest : XMLForest)
deriving Repr
end

mutual
def decEqXMLElement : (a b : XMLElement) → Decidable (a = b)
  | .mk t1 x1 c1, .mk t2 x2 c2 =>
    match decEq t1 t2, decEq x1 x2, decEqXMLForest c1 c2 with
    | isTrue h1, isTrue h2, isTrue h3 => isTrue (by rw [h1, h2, h3])
    | isFalse h, _, _ => isFalse (by intro he; cases he; exact h rfl)
    | _, isFalse h, _ => isFalse (by intro he; cases he; exact h rfl)
    | _, _, isFalse h => isFalse (by intro he; cases he; exact h rfl)
def decEqXMLForest : (a b : XMLForest) → Decidable (a = b)
  | .nil, .nil => isTrue rfl
  | .nil, .cons _ _ => isFalse (by intro h; cases h)
  | .cons _ _, .nil => isFalse (by intro h; cases h)
  | .cons e1 r1, .cons e2 r2 =>
    match decEqXMLElement e1 e2, decEqXMLForest r1 r2 with
    | isTrue h1, isTrue h2 => isTrue (by rw [h1, h2])
    | isFalse h, _ => isFalse (by intro he; cases he; exact h rfl)
    | _, isFalse h => isFalse (by intro he; cases he; exact h rfl)
end

instance : DecidableEq XMLElement := decEqXMLElement
instance : DecidableEq XMLForest := decEqXMLForest

def XMLElement.tag : XMLElement → String
  | .mk t _ _ => t

def XMLElement.text : XMLElement → Option String
  | .mk _ tx _ => tx

def XMLElement.children : XMLElement → XMLForest
  | .mk _ _ cs => cs

/-- The sibling forest as an ordinary list. -/
def XMLForest.toList : XMLForest → List XMLElement
  | .nil => []
  | .cons e rest => e :: rest.toList

/-- Build a sibling forest from an ordinary list. -/
def XMLForest.ofList : List XMLElement → XMLForest
  | [] => .nil
  | e :: rest => .cons e (ofList rest)

/-- The direct children of an element, as a list. -/
def XMLElement.childList (e : XMLElement) : List XMLElement :=
  e.children.toList

/-- The Maven POM namespace bound to the maven key in the source's
namespace dictionary. -/
def mavenNS : String := "http://maven.apache.org/POM/4.0.0"

/-- ElementTree rewrites a maven:local path step to the Clark form by
prepending the brace-wrapped namespace URI; this is that marker. -/
def clarkMaven : String := "\x7bhttp://maven.apache.org/POM/4.0.0\x7d"

/-- `qn local` is the fully qualified tag ElementTree compares against
when the path step maven:local is looked up with the source's namespace
map. -/
def qn (localName : String) : String := clarkMaven ++ localName

mutual
/-- First element with tag `t` in the subtree rooted at `e`, the root
itself considered first (the visiting order of ElementTree's iter). -/
def findInTree (t : String) : XMLElement → Option XMLElement
  | .mk tg tx cs => if tg == t then some (.mk tg tx cs) else findInForest t cs
/-- First element with tag `t` across a forest in document (pre-)order:
each root with its subtree before the following roots. -/
def findInForest (t : String) : XMLForest → Option XMLElement
  | .nil => none
  | .cons e rest =>
    match findInTree t e with
    | some r => some r
    | none => findInForest t rest
end

/-- Embeds root.find('.//tag'): first matching proper descendant of the root in
document order (the root itself is not considered). -/
def findDescendant (t : String) (root : XMLElement) : Option XMLElement :=
  findInForest t root.children

/-- Embeds elem.find('tag'): first direct child with the given tag. -/
def findChild (t : String) (e : XMLElement) : Option XMLElement :=
  e.childList.find? (fun c => c.tag == t)

/-- Embeds elem.findall('tag'): all direct children with the given tag, in
document order. -/
def findAllChildren (t : String) (e : XMLElement) : List XMLElement :=
  e.childList.filter (fun c => c.tag == t)

mutual
/-- The subtree rooted at `e` in document (pre-)order: the root, then its
descendants. -/
def selfAndDescendants : XMLElement → List XMLElement
  | .mk tg tx cs => .mk tg tx cs :: descendantsForest cs
/-- All elements of a forest in document (pre-)order. -/
def descendantsForest : XMLForest → List XMLElement
  | .nil => []
  | .cons e rest => selfAndDescendants e ++ descendantsForest rest
end

/-- All proper descendants of an element, in document (pre-)order — the
candidates of a './/' search below the root. -/
def XMLElement.descendants (root : XMLElement) : List XMLElement :=
  descendantsForest root.children

/-- The body of the extraction loop of parse_dependencies_from_pom for a
single dependency element: look up the four namespace-qualified child
fields, and build a record only when the groupId and artifactId elements
are both present (the Python tests `is not None`); version defaults to
the string N/A and scope to compile when the corresponding element is
absent. -/
def parse_dep_element (dep_elem : XMLElement) : Option DependencyRecord :=
  let group_id_elem := findChild (qn ("groupId")) dep_elem
  let artifact_id_elem := findChild (qn ("artifactId")) dep_elem
  let version_elem := findChild (qn ("version")) dep_elem
  let scope_elem := findChild (qn ("scope")) dep_elem
  match group_id_elem, artifact_id_elem with
  | some ge, some ae =>
    some { groupId := ge.text
           artifactId := ae.text
           version := match version_elem with
                      | some ve => ve.text
                      | none => some ("N/A")
           scope := match scope_elem with
                    | some se => se.text
                    | none => some ("compile") }
  | _, _ => none

/-- Dependency extraction from an already-parsed document: locate the
first maven:dependencies element anywhere below the root; if absent
return the empty list; otherwise run the loop over its direct
maven:dependency children, appending one record per element that passes
the presence test. -/
def extract_dependencies (root : XMLElement) : List DependencyRecord :=
  match findDescendant (qn ("dependencies")) root with
  | none => []
  | some dependencies_elem =>
    (findAllChildren (qn ("dependency")) dependencies_elem).filterMap parse_dep_element

/-- parse_dependencies_from_pom: parse the POM text with the (foreign,
hence parametrised) XML frontend; a syntax error is re-raised as the
manifest-parse failure with the Python's message; otherwise the
extraction runs on the tree and its full list is returned. -/
def parse_dependencies_from_pom (fromstring : String → Except String XMLElement)
    (pom_content : String) : Except StageError (List DependencyRecord) :=
  match fromstring pom_content with
  | .error e => .error (.manifestParseError ("Ошибка парсинга POM XML: " ++ e))
  | .ok root => .ok (extract_dependencies root)

/-- Outcome of the foreign urllib transport for one GET: a delivered
response (status code plus decoded body), an HTTPError (urllib raises
this for every non-2xx final status, carrying code and reason), or a
URLError (DNS/connection/timeout). -/
inductive HTTPResult : Type where
  | response (status : Nat) (body : String)
  | httpError (code : Nat) (reason : String)
  | urlError (reason : String)
deriving DecidableEq, Repr

/-- download_pom_file on the transport outcome: status 200 returns the
body; any other delivered status raises an HTTP-status error that the
function's own blanket handler rewraps; an HTTPError is rewrapped with
its code and reason; a URLError with its reason. -/
def download_pom_file : HTTPResult → Except StageError String
  | .response status body =>
    if status == 200 then .ok body
    else .error (.retrievalError
      ("Ошибка при загрузке POM файла: HTTP ошибка: " ++ toString status))
  | .httpError code reason =>
    .error (.retrievalError
      ("Не удалось загрузить POM файл: HTTP " ++ toString code ++ " - " ++ reason))
  | .urlError reason =>
    .error (.retrievalError ("Ошибка URL: " ++ reason))

/-- Python split(':', 1) when a colon is present: the part before the
first colon and everything after it; none when the string has no colon. -/
def split_first_colon : List Char → Option (List Char × List Char)
  | [] => none
  | c :: rest =>
    if c == ':' then some ([], rest)
    else
      match split_first_colon rest with
      | some (pre, post) => some (c :: pre, post)
      | none => none

/-- Python str.strip on a character list: drop whitespace from the front
and from the back. -/
def strip_chars (l : List Char) : List Char :=
  ((l.dropWhile Char.isWhitespace).reverse.dropWhile Char.isWhitespace).reverse

/-- Python str.strip: the string with surrounding whitespace removed. -/
def py_strip (s : String) : String := String.mk (strip_chars s.data)

/-- parse_package_name: reject a package string without a colon;
otherwise split at the first colon and strip both parts. -/
def parse_package_name (package : String) : Except StageError (String × String) :=
  match split_first_colon package.data with
  | none => .error (.malformedCoordinateError ("Имя пакета должно содержать ':'"))
  | some (g, a) => .ok (py_strip (String.mk g), py_strip (String.mk a))

/-- Python replace('.', '/') — with a one-character pattern this is the
character-wise map. -/
def replace_dots (group_id : String) : String :=
  String.mk (group_id.data.map (fun c => if c == '.' then '/' else c))

/-- Python endswith('/'): the last character is a slash. -/
def ends_with_slash (s : String) : Bool :=
  match s.data.getLast? with
  | some c => c == '/'
  | none => false

/-- construct_pom_url: Maven-layout address of the POM file.  The
repository[:-1] slice that drops one trailing slash is
String.mk repository.data.dropLast. -/
def construct_pom_url (group_id artifact_id version repository : String) : String :=
  let group_path := replace_dots group_id
  let pom_filename := artifact_id ++ "-" ++ version ++ ".pom"
  let repo := if ends_with_slash repository
              then String.mk repository.data.dropLast
              else repository
  repo ++ "/" ++ group_path ++ "/" ++ artifact_id ++ "/" ++ version ++ "/" ++ pom_filename

/-- Convenience builder for concrete documents: an element with children
given as a list. -/
def el (t : String) (tx : Option String) (cs : List XMLElement) : XMLElement :=
  .mk t tx (XMLForest.ofList cs)

/-- Modelled from the spec: "replace every `.` in groupId with `/` to form
a path segment; construct the manifest filename as artifactId-version.pom;
normalize the repository root by stripping one trailing `/` if present;
concatenate as root/groupPath/artifactId/version/filename". -/
def pom_url_by_spec (groupId artifactId version root : String) : String :=
  let groupPath := String.mk (groupId.data.map (fun c => if c == '.' then '/' else c))
  let filename := artifactId ++ "-" ++ version ++ ".pom"
  let normRoot := if ends_with_slash root then String.mk root.data.dropLast else root
  normRoot ++ "/" ++ groupPath ++ "/" ++ artifactId ++ "/" ++ version ++ "/" ++ filename

/-- Modelled from the spec: the original coordinate string "minus
incidental whitespace" — the two colon-separated segments each stripped of
surrounding whitespace and rejoined with a colon. -/
def trimmed_coordinate (g a : List Char) : String :=
  py_strip (String.mk g) ++ ":" ++ py_strip (String.mk a)

/-- The invariant asserted by the spec for every emitted record: group and
artifact are present and non-empty. -/
def has_nonempty_ids (r : DependencyRecord) : Bool :=
  (match r.groupId with
   | some s => !s.isEmpty
   | none => false)
  && (match r.artifactId with
      | some s => !s.isEmpty
      | none => false)

/-- A POM whose single dependency has a groupId element that is present
but empty (ElementTree reports its text as None). -/
def c1_bad_root : XMLElement :=
  el (qn ("project")) none
    [el (qn ("dependencies")) none
      [el (qn ("dependency")) none
        [el (qn ("groupId")) none [],
         el (qn ("artifactId")) (some ("commons-lang")) []]]]

/-- A dependency list with two complete dependencies and one lacking its
artifactId element. -/
def c1_demo_deps : XMLElement :=
  el (qn ("dependencies")) none
    [el (qn ("dependency")) none
      [el (qn ("groupId")) (some ("org.one")) [],
       el (qn ("artifactId")) (some ("one-art")) []],
     el (qn ("dependency")) none
      [el (qn ("groupId")) (some ("org.two")) []],
     el (qn ("dependency")) none
      [el (qn ("groupId")) (some ("org.three")) [],
       el (qn ("artifactId")) (some ("three-art")) []]]

/-- A POM around `c1_demo_deps`. -/
def c1_demo_root : XMLElement :=
  el (qn ("project")) none [c1_demo_deps]

/-- A well-formed POM with no dependencies element at all. -/
def c4_absent_root : XMLElement :=
  el (qn ("project")) none
    [el (qn ("modelVersion")) (some ("4.0.0")) [],
     el (qn ("artifactId")) (some ("standalone")) []]

/-- A well-formed POM whose dependencies element has no dependency
children. -/
def c4_empty_root : XMLElement :=
  el (qn ("project")) none
    [el (qn ("dependencies")) none []]

/-- The junit dependency element of the spec's third concrete scenario:
group and artifact only, no version, no scope. -/
def c5_junit_elem : XMLElement :=
  el (qn ("dependency")) none
    [el (qn ("groupId")) (some ("junit")) [],
     el (qn ("artifactId")) (some ("junit")) []]

/-- A dependency element with no version element but with an explicit
scope element — the version default must apply here too. -/
def c5_scoped_elem : XMLElement :=
  el (qn ("dependency")) none
    [el (qn ("groupId")) (some ("junit")) [],
     el (qn ("artifactId")) (some ("junit")) [],
     el (qn ("scope")) (some ("test")) []]

/-- A POM with no xmlns declaration: every tag is plain (no Clark
namespace marker), yet the document textually declares a dependency. -/
def c9_plain_root : XMLElement :=
  el ("project") none
    [el ("dependencies") none
      [el ("dependency") none
        [el ("groupId") (some ("junit")) [],
         el ("artifactId") (some ("junit")) []]]]

/-- A POM whose first maven:dependencies element in document order sits
inside dependencyManagement; a top-level dependencies element follows. -/
def c10_nested_root : XMLElement :=
  el (qn ("project")) none
    [el (qn ("dependencyManagement")) none
      [el (qn ("dependencies")) none
        [el (qn ("dependency")) none
          [el (qn ("groupId")) (some ("org.managed")) [],
           el (qn ("artifactId")) (some ("managed-artifact")) [],
           el (qn ("version")) (some ("2.0")) []]]],
     el (qn ("dependencies")) none
      [el (qn ("dependency")) none
        [el (qn ("groupId")) (some ("org.direct")) [],
         el (qn ("artifactId")) (some ("direct-artifact")) []]]]

/-! ## General lemmas about the embedding -/

@[simp] theorem XMLElement.tag_mk (t : String) (tx : Option String) (cs : XMLForest) :
    (XMLElement.mk t tx cs).tag = t := rfl

@[simp] theorem XMLElement.text_mk (t : String) (tx : Option String) (cs : XMLForest) :
    (XMLElement.mk t tx cs).text = tx := rfl

@[simp] theorem XMLElement.children_mk (t : String) (tx : Option String) (cs : XMLForest) :
    (XMLElement.mk t tx cs).children = cs := rfl

theorem string_mk_data (s : String) : String.mk s.data = s := rfl

mutual
/-- The tree search of findInTree is first-match over the subtree in
document (pre-)order. -/
theorem findInTree_eq_find? (t : String) : (e : XMLElement) →
    findInTree t e = (selfAndDescendants e).find? (fun x => x.tag == t)
  | .mk tg tx cs => by
    rw [findInTree, selfAndDescendants]
    by_cases h : (tg == t) = true
    · simp [h]
    · rw [if_neg h, List.find?_cons_of_neg _ (by simpa using h),
          findInForest_eq_find? t cs]
/-- The forest search of findInForest is first-match over all forest
elements in document (pre-)order. -/
theorem findInForest_eq_find? (t : String) : (f : XMLForest) →
    findInForest t f = (descendantsForest f).find? (fun x => x.tag == t)
  | .nil => rfl
  | .cons e rest => by
    rw [findInForest, descendantsForest, List.find?_append,
        ← findInTree_eq_find? t e, ← findInForest_eq_find? t rest]
    cases findInTree t e <;> simp [Option.or]
end

/-- The search root.find('.//t') is the first element with tag t among the proper
descendants of the root in document order. -/
theorem findDescendant_eq_find? (t : String) (root : XMLElement) :
    findDescendant t root = root.descendants.find? (fun x => x.tag == t) :=
  findInForest_eq_find? t root.children

/-- A filterMap keeps exactly as many elements as pass the isSome test. -/
theorem length_filterMap_eq_length_filter {α β : Type} (f : α → Option β) :
    (l : List α) → (l.filterMap f).length = (l.filter (fun a => (f a).isSome)).length
  | [] => rfl
  | a :: l => by
    cases h : f a <;>
      simp [List.filterMap_cons, List.filter_cons, h,
            length_filterMap_eq_length_filter f l]

/-- The extraction loop emits a record exactly when the groupId and
artifactId elements are both present. -/
theorem parse_dep_element_isSome (e : XMLElement) :
    (parse_dep_element e).isSome
      = ((findChild (qn ("groupId")) e).isSome
          && (findChild (qn ("artifactId")) e).isSome) := by
  unfold parse_dep_element
  cases findChild (qn ("groupId")) e <;>
    cases findChild (qn ("artifactId")) e <;> simp

/-- Splitting at the first colon of a string built around one colon
recovers the two surrounding parts, provided the first part is
colon-free. -/
theorem split_first_colon_append (g a : List Char) (hg : ':' ∉ g) :
    split_first_colon (g ++ ':' :: a) = some (g, a) := by
  induction g with
  | nil => simp [split_first_colon]
  | cons c g ih =>
    rw [List.cons_append, split_first_colon]
    have hc : (c == ':') = false := by
      simp only [List.mem_cons, not_or] at hg
      simpa [beq_eq_false_iff_ne] using fun h => hg.1 h.symm
    rw [if_neg (by simp [hc]), ih (by simp only [List.mem_cons, not_or] at hg; exact hg.2)]

/-- Appending a slash makes ends_with_slash true. -/
theorem ends_with_slash_append_slash (r : String) :
    ends_with_slash (r ++ "/") = true := by
  unfold ends_with_slash
  rw [String.data_append, show ("/").data = [Char.ofNat 47] from rfl,
      List.getLast?_concat]
  decide

/-- Dropping the last character of a string with a slash appended
recovers the string. -/
theorem drop_appended_slash (r : String) :
    String.mk ((r ++ "/").data).dropLast = r := by
  rw [String.data_append, show ("/").data = [Char.ofNat 47] from rfl,
      List.dropLast_concat]

/-! ## Claim theorems -/

/-- Claim C2: for every groupId, artifactId, version and repository root,
construct_pom_url returns exactly root-with-one-trailing-slash-stripped /
groupId-with-dots-replaced / artifactId / version /
artifactId-version.pom (the spec's layout formula, pom_url_by_spec); in
particular the spring-core example produces the documented address. -/
theorem c2_construct_pom_url_matches_layout :
    (∀ group_id artifact_id version repository : String,
        construct_pom_url group_id artifact_id version repository
          = pom_url_by_spec group_id artifact_id version repository)
    ∧ construct_pom_url ("org.springframework") ("spring-core") ("5.3.0")
        ("https://repo1.maven.org/maven2")
      = "https://repo1.maven.org/maven2/org/springframework/spring-core/5.3.0/spring-core-5.3.0.pom" :=
  ⟨fun _ _ _ _ => rfl, by decide⟩

/-- Claim C8 counterexample: a repository root ending in two slashes
refutes the claim that a root with a trailing slash yields the same
address as the same root without that trailing slash — the code strips
only one slash, so root x// gives address x//g/a/1/a-1.pom while root x/
gives x/g/a/1/a-1.pom. -/
theorem c8_counterexample :
    construct_pom_url ("g") ("a") ("1") ("x//")
      ≠ construct_pom_url ("g") ("a") ("1") ("x/") := by decide

/-- Claim C8 (amended): the URL builder is deterministic, and appending a
trailing slash to a repository root that does not already end in a slash
yields exactly the same address as the root without it. -/
theorem c8_deterministic_and_trailing_slash (g a v r : String)
    (h : ends_with_slash r = false) :
    construct_pom_url g a v r = construct_pom_url g a v r
    ∧ construct_pom_url g a v (r ++ "/") = construct_pom_url g a v r := by
  refine ⟨rfl, ?_⟩
  unfold construct_pom_url
  rw [ends_with_slash_append_slash, h]
  simp only [if_true, Bool.false_eq_true, if_false, drop_appended_slash]

/-- Witness for C8 (amended) at the spec's second concrete scenario. -/
theorem c8_deterministic_and_trailing_slash_witness :
    ends_with_slash ("https://example.com/repo") = false
    ∧ construct_pom_url ("com.example") ("demo") ("1.0") ("https://example.com/repo" ++ "/")
        = construct_pom_url ("com.example") ("demo") ("1.0") ("https://example.com/repo") :=
  ⟨by decide,
   (c8_deterministic_and_trailing_slash ("com.example") ("demo") ("1.0")
      ("https://example.com/repo") (by decide)).2⟩

/-- Claim C7: for every string with exactly one colon — written as a
colon-free part, the colon, and a second colon-free part — parsing
succeeds and re-joining the two returned parts with a colon yields the
original string minus the incidental whitespace around each segment. -/
theorem c7_parse_package_name_round_trip (g a : List Char)
    (hg : ':' ∉ g) (ha : ':' ∉ a) :
    ∃ gi ai, parse_package_name (String.mk (g ++ ':' :: a)) = .ok (gi, ai)
      ∧ gi ++ ":" ++ ai = trimmed_coordinate g a := by
  refine ⟨py_strip (String.mk g), py_strip (String.mk a), ?_, rfl⟩
  unfold parse_package_name
  rw [show (String.mk (g ++ ':' :: a)).data = g ++ ':' :: a from rfl,
      split_first_colon_append g a hg]

/-- Witness for C7 on a coordinate with incidental whitespace. -/
theorem c7_parse_package_name_round_trip_witness :
    (':' ∉ (" org ").data) ∧ (':' ∉ (" my-art ").data)
    ∧ ∃ gi ai,
        parse_package_name (String.mk ((" org ").data ++ ':' :: (" my-art ").data))
          = .ok (gi, ai)
        ∧ gi ++ ":" ++ ai = trimmed_coordinate ((" org ").data) ((" my-art ").data) :=
  ⟨by decide, by decide,
   c7_parse_package_name_round_trip ((" org ").data) ((" my-art ").data)
     (by decide) (by decide)⟩

/-- Claim C3: a non-2xx HTTP outcome (surfaced by urllib as an HTTPError
carrying the status) makes download_pom_file fail with a RetrievalError
whose message preserves that status code, never returning body content;
and a delivered response succeeds exactly when its status is 200. -/
theorem c3_non_success_is_retrieval_error (code : Nat) (reason body : String)
    (h : ¬ (200 ≤ code ∧ code < 300)) :
    download_pom_file (.httpError code reason)
        = .error (.retrievalError
            ("Не удалось загрузить POM файл: HTTP " ++ toString code ++ " - " ++ reason))
    ∧ (∀ status : Nat,
        download_pom_file (.response status body) = .ok body ↔ status = 200) := by
  refine ⟨rfl, fun status => ?_⟩
  simp only [download_pom_file]
  by_cases hs : status = 200
  · subst hs; simp
  · rw [if_neg (by simp [hs])]
    simp [hs]

/-- Witness for C3 at the spec's fifth concrete scenario (HTTP 404). -/
theorem c3_non_success_is_retrieval_error_witness :
    (¬ (200 ≤ 404 ∧ 404 < 300))
    ∧ download_pom_file (.httpError 404 ("Not Found"))
        = .error (.retrievalError
            ("Не удалось загрузить POM файл: HTTP " ++ toString 404 ++ " - " ++ "Not Found"))
    ∧ (download_pom_file (.response 404 ("ignored")) = .ok ("ignored")
        ↔ (404 : Nat) = 200) :=
  ⟨by decide,
   (c3_non_success_is_retrieval_error 404 ("Not Found") ("ignored") (by decide)).1,
   (c3_non_success_is_retrieval_error 404 ("Not Found") ("ignored") (by decide)).2 404⟩

/-- Claim C6: whenever the XML frontend rejects the input as not
well-formed, parse_dependencies_from_pom fails with the manifest-parse
error carrying the underlying syntax-error description, and no (partial)
dependency sequence is returned. -/
theorem c6_malformed_xml_is_parse_error
    (fromstring : String → Except String XMLElement) (s e : String)
    (h : fromstring s = .error e) :
    parse_dependencies_from_pom fromstring s
      = .error (.manifestParseError ("Ошибка парсинга POM XML: " ++ e)) := by
  unfold parse_dependencies_from_pom
  rw [h]

/-- Witness for C6 with a frontend rejecting an unterminated document. -/
theorem c6_malformed_xml_is_parse_error_witness :
    ((fun _ : String =>
        (.error ("syntax error: line 1, column 0") : Except String XMLElement)) ("<project")
      = .error ("syntax error: line 1, column 0"))
    ∧ parse_dependencies_from_pom
        (fun _ => .error ("syntax error: line 1, column 0")) ("<project")
      = .error (.manifestParseError
          ("Ошибка парсинга POM XML: " ++ "syntax error: line 1, column 0")) :=
  ⟨rfl,
   c6_malformed_xml_is_parse_error
     (fun _ => .error ("syntax error: line 1, column 0")) ("<project")
     ("syntax error: line 1, column 0") rfl⟩

/-- Claim C4: a well-formed manifest whose dependencies element is absent,
or present without any dependency children, parses to the empty sequence
with no error. -/
theorem c4_no_dependencies_is_empty_ok
    (fromstring : String → Except String XMLElement) (s : String)
    (root : XMLElement) (hp : fromstring s = .ok root)
    (h : findDescendant (qn ("dependencies")) root = none
         ∨ ∃ d, findDescendant (qn ("dependencies")) root = some d
             ∧ findAllChildren (qn ("dependency")) d = []) :
    parse_dependencies_from_pom fromstring s = .ok [] := by
  unfold parse_dependencies_from_pom
  rw [hp]
  show Except.ok (extract_dependencies root) = Except.ok ([] : List DependencyRecord)
  unfold extract_dependencies
  rcases h with h | ⟨d, hd, hnil⟩
  · rw [h]
  · rw [hd]
    show Except.ok ((findAllChildren (qn ("dependency")) d).filterMap parse_dep_element)
        = Except.ok ([] : List DependencyRecord)
    rw [hnil]
    rfl

/-- Witness for C4 on a POM with no dependencies element. -/
theorem c4_no_dependencies_is_empty_ok_witness :
    ((fun _ : String => (.ok c4_absent_root : Except String XMLElement)) ("<project/>")
        = .ok c4_absent_root)
    ∧ (findDescendant (qn ("dependencies")) c4_absent_root = none
       ∨ ∃ d, findDescendant (qn ("dependencies")) c4_absent_root = some d
           ∧ findAllChildren (qn ("dependency")) d = [])
    ∧ parse_dependencies_from_pom (fun _ => .ok c4_absent_root) ("<project/>") = .ok []
    ∧ parse_dependencies_from_pom (fun _ => .ok c4_empty_root) ("<project/>") = .ok [] :=
  ⟨rfl, Or.inl (by decide),
   c4_no_dependencies_is_empty_ok (fun _ => .ok c4_absent_root) ("<project/>")
     c4_absent_root rfl (Or.inl (by decide)),
   c4_no_dependencies_is_empty_ok (fun _ => .ok c4_empty_root) ("<project/>")
     c4_empty_root rfl (Or.inr ⟨el (qn ("dependencies")) none [], by decide, by decide⟩)⟩

/-- Claim C5: for a dependency element with groupId and artifactId
elements, whenever the version element is absent the emitted record's
version is the sentinel string N/A (whether or not a scope element is
present), and whenever the scope element is absent the emitted record's
scope is compile (whether or not a version element is present). -/
theorem c5_version_scope_defaults (dep_elem ge ae : XMLElement)
    (hg : findChild (qn ("groupId")) dep_elem = some ge)
    (ha : findChild (qn ("artifactId")) dep_elem = some ae) :
    ((findChild (qn ("version")) dep_elem = none) →
        ∃ r, parse_dep_element dep_elem = some r ∧ r.version = some ("N/A"))
    ∧ ((findChild (qn ("scope")) dep_elem = none) →
        ∃ r, parse_dep_element dep_elem = some r ∧ r.scope = some ("compile")) := by
  constructor
  · intro hv
    refine ⟨{ groupId := ge.text, artifactId := ae.text,
              version := some ("N/A"),
              scope := match findChild (qn ("scope")) dep_elem with
                       | some se => se.text
                       | none => some ("compile") }, ?_, rfl⟩
    unfold parse_dep_element
    rw [hg, ha, hv]
  · intro hs
    refine ⟨{ groupId := ge.text, artifactId := ae.text,
              version := match findChild (qn ("version")) dep_elem with
                         | some ve => ve.text
                         | none => some ("N/A"),
              scope := some ("compile") }, ?_, rfl⟩
    unfold parse_dep_element
    rw [hg, ha, hs]

/-- Witness for C5: the spec's junit scenario (no version, no scope)
exercises both defaults, and an element carrying a scope element but no
version element still receives the version default. -/
theorem c5_version_scope_defaults_witness :
    findChild (qn ("groupId")) c5_junit_elem
        = some (el (qn ("groupId")) (some ("junit")) [])
    ∧ findChild (qn ("artifactId")) c5_junit_elem
        = some (el (qn ("artifactId")) (some ("junit")) [])
    ∧ findChild (qn ("version")) c5_junit_elem = none
    ∧ findChild (qn ("scope")) c5_junit_elem = none
    ∧ (∃ r, parse_dep_element c5_junit_elem = some r ∧ r.version = some ("N/A"))
    ∧ (∃ r, parse_dep_element c5_junit_elem = some r ∧ r.scope = some ("compile"))
    ∧ parse_dep_element c5_junit_elem
        = some { groupId := some ("junit"), artifactId := some ("junit"),
                 version := some ("N/A"), scope := some ("compile") }
    ∧ (findChild (qn ("version")) c5_scoped_elem = none
       ∧ ∃ r, parse_dep_element c5_scoped_elem = some r ∧ r.version = some ("N/A")) :=
  ⟨by decide, by decide, by decide, by decide,
   (c5_version_scope_defaults c5_junit_elem
     (el (qn ("groupId")) (some ("junit")) [])
     (el (qn ("artifactId")) (some ("junit")) [])
     (by decide) (by decide)).1 (by decide),
   (c5_version_scope_defaults c5_junit_elem
     (el (qn ("groupId")) (some ("junit")) [])
     (el (qn ("artifactId")) (some ("junit")) [])
     (by decide) (by decide)).2 (by decide),
   by decide,
   ⟨by decide,
    (c5_version_scope_defaults c5_scoped_elem
      (el (qn ("groupId")) (some ("junit")) [])
      (el (qn ("artifactId")) (some ("junit")) [])
      (by decide) (by decide)).1 (by decide)⟩⟩

/-- Claim C1 counterexample: a dependency element whose groupId element is
present but empty (text None) is not excluded — the parser emits a record
whose group field is absent, refuting the invariant that no record is
ever emitted with an empty or absent group field. -/
theorem c1_counterexample :
    extract_dependencies c1_bad_root
      = [{ groupId := none, artifactId := some ("commons-lang"),
           version := some ("N/A"), scope := some ("compile") }]
    ∧ ¬ (∀ r ∈ extract_dependencies c1_bad_root, has_nonempty_ids r = true) :=
  ⟨by decide, by decide⟩

/-- Claim C1 (amended): the parser excludes a dependency element exactly
when its groupId or artifactId child element is absent — the presence of
the elements is tested, not the non-emptiness of their text — and the
output length equals the number of dependency children carrying both
elements (so it drops by exactly one per element lacking either). -/
theorem c1_exclusion_is_element_presence (root d : XMLElement)
    (h : findDescendant (qn ("dependencies")) root = some d) :
    (∀ e : XMLElement,
        (parse_dep_element e).isSome
          = ((findChild (qn ("groupId")) e).isSome
              && (findChild (qn ("artifactId")) e).isSome))
    ∧ (extract_dependencies root).length
        = ((findAllChildren (qn ("dependency")) d).filter
            (fun e => (findChild (qn ("groupId")) e).isSome
                      && (findChild (qn ("artifactId")) e).isSome)).length := by
  refine ⟨parse_dep_element_isSome, ?_⟩
  unfold extract_dependencies
  rw [h, length_filterMap_eq_length_filter]
  exact congrArg List.length
    (List.filter_congr (fun e _ => parse_dep_element_isSome e))

/-- Witness for C1 (amended): of three dependency elements, the one
lacking an artifactId element is dropped and exactly two records
remain. -/
theorem c1_exclusion_is_element_presence_witness :
    findDescendant (qn ("dependencies")) c1_demo_root = some c1_demo_deps
    ∧ (extract_dependencies c1_demo_root).length
        = ((findAllChildren (qn ("dependency")) c1_demo_deps).filter
            (fun e => (findChild (qn ("groupId")) e).isSome
                      && (findChild (qn ("artifactId")) e).isSome)).length
    ∧ (extract_dependencies c1_demo_root).length = 2
    ∧ (findAllChildren (qn ("dependency")) c1_demo_deps).length = 3 :=
  ⟨by decide,
   (c1_exclusion_is_element_presence c1_demo_root c1_demo_deps (by decide)).2,
   by decide, by decide⟩

/-- Claim C9: when no element below the root carries the
namespace-qualified dependencies tag — in particular in a document with
no xmlns declaration, whose tags are all plain — the extraction returns
the empty sequence even if the document textually declares
dependencies. -/
theorem c9_foreign_namespace_yields_empty (root : XMLElement)
    (h : ∀ x ∈ root.descendants, x.tag ≠ qn ("dependencies")) :
    extract_dependencies root = [] := by
  unfold extract_dependencies
  have hnone : findDescendant (qn ("dependencies")) root = none := by
    rw [findDescendant_eq_find?]
    exact List.find?_eq_none.mpr (fun x hx => by simpa using h x hx)
  rw [hnone]

/-- Witness for C9: an un-namespaced POM that textually declares a junit
dependency still parses to the empty sequence. -/
theorem c9_foreign_namespace_yields_empty_witness :
    (∀ x ∈ c9_plain_root.descendants, x.tag ≠ qn ("dependencies"))
    ∧ (∃ x ∈ c9_plain_root.descendants, x.tag = "dependencies")
    ∧ extract_dependencies c9_plain_root = [] :=
  ⟨by decide, by decide,
   c9_foreign_namespace_yields_empty c9_plain_root (by decide)⟩

/-- Claim C10: the dependency-list lookup is a descendant search taking
the first namespace-qualified dependencies element in document
(pre-)order, and extraction runs over exactly that element's direct
dependency children; concretely, a dependencies element nested inside
dependencyManagement that appears before the top-level one is the one
used. -/
theorem c10_first_dependencies_in_document_order :
    (∀ root : XMLElement,
        findDescendant (qn ("dependencies")) root
          = root.descendants.find? (fun x => x.tag == qn ("dependencies"))
        ∧ extract_dependencies root
          = ((root.descendants.find? (fun x => x.tag == qn ("dependencies"))).map
              (fun d => (findAllChildren (qn ("dependency")) d).filterMap
                parse_dep_element)).getD [])
    ∧ extract_dependencies c10_nested_root
        = [{ groupId := some ("org.managed"), artifactId := some ("managed-artifact"),
             version := some ("2.0"), scope := some ("compile") }] := by
  refine ⟨fun root => ⟨findDescendant_eq_find? _ root, ?_⟩, by decide⟩
  unfold extract_dependencies
  rw [findDescendant_eq_find?]
  cases root.descendants.find? (fun x => x.tag == qn ("dependencies")) <;> rfl
